import Mathlib

/-!
Verification of the provider/strategy core of the llm-playground repository.

We give a shallow embedding of the pure control and data logic of:
  llm_core/llm_core/providers/strategies/openai_api_strategy.py
  llm_core/llm_core/providers/strategies/gemini_native_strategy.py
  applications/summarize_webpage/core/summarizer.py
  applications/summarize_webpage/scraper.py
  applications/summarize_webpage/summarize_webpage.py
  summarize_webpage/providers/base_provider.py
  summarize_webpage/providers/gemini.py
  summarize_webpage/providers/openai.py
  llm_core/llm_core/providers/ollama.py

Network clients are modelled as oracle functions into Except, where the
error branch stands for a raised Python exception described by its string
rendering.  Console output of the orchestrator is modelled as a trace of
events, so that properties of the form "summarize is never invoked" are
statable.  Python string truthiness, the `in` substring test, `or`
defaulting, and `str.startswith` are embedded explicitly.
-/

namespace LLMPlayground

/-- Python truthiness of an optional string value: `None` and the empty
string are falsy, every other string is truthy. -/
def pyTruthy : Option String → Bool
  | none => false
  | some s => !s.isEmpty

/-- Python substring containment test `pat in s`. -/
def pyIn (pat s : String) : Bool := decide (pat.data <:+: s.data)

/-- Python `x or default` applied to an optional string (an empty string
also falls through to the default). -/
def pyOrDefault : Option String → String → String
  | none, d => d
  | some s, d => if s.isEmpty then d else s

/-- Python `s.startswith(pre)`. -/
def pyStartsWith (s pre : String) : Bool := pre.data.isPrefixOf s.data

/-- Which of the two concrete strategy behaviours a strategy object
implements (openai_api_strategy.py versus gemini_native_strategy.py). -/
inductive StrategyKind where
  | openaiAPI
  | geminiNative
deriving DecidableEq, Repr

/-- A strategy object: its Python class name (inspected by
GeminiProvider.__init__ via `"Native" in strategy.__class__.__name__`)
together with the behaviour it implements. -/
structure Strategy where
  className : String
  kind : StrategyKind
deriving DecidableEq, Repr

/-- The concrete OpenAIAPIStrategy object. -/
def OpenAIAPIStrategyObj : Strategy := ⟨"OpenAIAPIStrategy", .openaiAPI⟩

/-- The concrete GeminiNativeStrategy object. -/
def GeminiNativeStrategyObj : Strategy := ⟨"GeminiNativeStrategy", .geminiNative⟩

/-- Provider configuration record, mirroring BaseProvider.__init__
(base_provider.py lines 20-35): name, model, strategy, api_key, base_url. -/
structure Provider where
  name : String
  model : String
  strategy : Strategy
  api_key : Option String
  base_url : Option String
deriving DecidableEq, Repr

/-- One chat message dict, as built in OpenAIAPIStrategy.summarize. -/
structure ChatMessage where
  role : String
  content : String
deriving DecidableEq, Repr

/-- The request handed to `client.chat.completions.create`: the model and
the message list. -/
structure ChatRequest where
  model : String
  messages : List ChatMessage
deriving DecidableEq, Repr

/-- The `message` field of a response choice. -/
structure ChoiceMessage where
  content : String
deriving DecidableEq, Repr

/-- One element of `response.choices`. -/
structure ChatChoice where
  message : ChoiceMessage
deriving DecidableEq, Repr

/-- An OpenAI-shaped chat completion response. -/
structure ChatResponse where
  choices : List ChatChoice
deriving DecidableEq, Repr

/-- A Gemini native `generate_content` response: its `text` field. -/
structure GeminiResponse where
  text : String
deriving DecidableEq, Repr

/-- An OpenAI-compatible client: maps the request to a response, or to the
string rendering of a raised exception. -/
def ChatClient : Type := ChatRequest → Except String ChatResponse

/-- A Gemini native model handle: maps the flattened prompt to a response,
or to the string rendering of a raised exception. -/
def GenClient : Type := String → Except String GeminiResponse

/-- The message list built by OpenAIAPIStrategy.summarize
(openai_api_strategy.py lines 13-16). -/
def openaiMessages (website_content system_prompt user_pfx : String) : List ChatMessage :=
  [⟨"system", system_prompt⟩, ⟨"user", user_pfx ++ website_content⟩]

/-- The single outgoing request of OpenAIAPIStrategy.summarize
(openai_api_strategy.py lines 18-20): `model=provider.model` and the
two-message list. -/
def openaiRequest (provider : Provider) (website_content system_prompt user_pfx : String) :
    ChatRequest :=
  ⟨provider.model, openaiMessages website_content system_prompt user_pfx⟩

/-- OpenAIAPIStrategy.summarize (openai_api_strategy.py lines 12-23).
The try block covers both the client call and the `choices[0]` indexing;
an empty `choices` list raises IndexError, rendered by Python as
"list index out of range", and falls into the same except clause. -/
def OpenAIAPIStrategy.summarize (provider : Provider) (client : ChatClient)
    (website_content system_prompt user_pfx : String) : String :=
  match client (openaiRequest provider website_content system_prompt user_pfx) with
  | .ok response =>
    match response.choices with
    | choice :: _ => choice.message.content
    | [] => "An error occurred with " ++ provider.name ++ ": list index out of range"
  | .error e => "An error occurred with " ++ provider.name ++ ": " ++ e

/-- The flattened prompt built by GeminiNativeStrategy.summarize
(gemini_native_strategy.py line 23): an f-string joining the system
prompt, the user prompt, and the content with double newlines. -/
def geminiFullPrompt (website_content system_prompt user_pfx : String) : String :=
  system_prompt ++ "\n\n" ++ user_pfx ++ "\n\n" ++ website_content

/-- GeminiNativeStrategy.summarize (gemini_native_strategy.py lines 21-28). -/
def GeminiNativeStrategy.summarize (provider : Provider) (client : GenClient)
    (website_content system_prompt user_pfx : String) : String :=
  match client (geminiFullPrompt website_content system_prompt user_pfx) with
  | .ok response => response.text
  | .error e => "An error occurred with " ++ provider.name ++ " (Native): " ++ e

/-- BaseProvider.summarize (base_provider.py line 67) delegates to the
bound strategy.  The oracles for both backend families are supplied; the
strategy behaviour selects which one is consulted. -/
def BaseProvider.summarize (p : Provider) (chat : ChatClient) (gen : GenClient)
    (website_content system_prompt user_pfx : String) : String :=
  match p.strategy.kind with
  | .openaiAPI => OpenAIAPIStrategy.summarize p chat website_content system_prompt user_pfx
  | .geminiNative => GeminiNativeStrategy.summarize p gen website_content system_prompt user_pfx

/-- The scraper fetch_website_contents (scraper.py lines 4-35).  The whole
try block (browser navigation and HTML-to-text cleanup) is modelled by an
oracle: `.ok text` is the cleaned page text, `.error e` a raised
exception.  The except clause converts any exception to a marker-prefixed
string; the function never raises. -/
def fetch_website_contents (attempt : Except String String) : String :=
  match attempt with
  | .ok text => text
  | .error e => "Error fetching website content with Playwright: " ++ e

/-- The failure-marker prefix the orchestrator tests for
(summarizer.py line 48). -/
def errorMarker : String := "Error fetching website content"

/-- The fixed system prompt of core/summarizer.py (lines 15-19). -/
def system_prompt : String :=
  "\nYou are a helpful assistant that analyzes website content and provides clear, concise summaries.\nFocus on the main content and key information, ignoring navigation elements, headers, and footers.\nProvide your response in markdown format without wrapping it in code blocks.\n"

/-- The fixed user prompt of core/summarizer.py (lines 21-25), named
user_prompt_prefix in the source. -/
def user_prompt_pfx : String :=
  "\nHere are the contents of a website.\nProvide a short summary of this website.\nIf it includes news or announcements, then summarize these too.\n"

/-- Observable actions of one summarize_and_display run, in order:
console panels and the calls made on the provider. -/
inductive Event where
  | skipReport (providerName : String)
  | getClientCall (providerName : String)
  | scrapeErrorReport (content : String)
  | summarizeCall (providerName : String)
  | summaryReport (name model summary : String)
deriving DecidableEq, Repr

/-- True exactly on skip-report events. -/
def Event.isSkipReport : Event → Bool
  | .skipReport _ => true
  | _ => false

/-- True exactly on get_client invocation events. -/
def Event.isGetClientCall : Event → Bool
  | .getClientCall _ => true
  | _ => false

/-- True exactly on summarize invocation events. -/
def Event.isSummarizeCall : Event → Bool
  | .summarizeCall _ => true
  | _ => false

/-- True exactly on scraping-error panel events. -/
def Event.isScrapeErrorReport : Event → Bool
  | .scrapeErrorReport _ => true
  | _ => false

/-- summarize_and_display (core/summarizer.py lines 28-57) as an event
trace.  The credential check is Python falsiness on provider.api_key;
get_client is invoked before the fetch; a marker-prefixed fetch result is
reported and ends the run before summarize; otherwise summarize runs and
its result is rendered labelled with the provider name and model. -/
def summarize_and_display (fetch : String → String) (chat : ChatClient) (gen : GenClient)
    (provider : Provider) (url : String) : List Event :=
  if pyTruthy provider.api_key = false then
    [.skipReport provider.name]
  else
    let website_content := fetch url
    if pyStartsWith website_content errorMarker then
      [.getClientCall provider.name, .scrapeErrorReport website_content]
    else
      let summary := BaseProvider.summarize provider chat gen website_content
        system_prompt user_prompt_pfx
      [.getClientCall provider.name, .summarizeCall provider.name,
        .summaryReport provider.name provider.model summary]

/-- GeminiProvider.__init__ (summarize_webpage/providers/gemini.py lines
7-23): branches on whether "Native" occurs in the strategy's class name;
credential always from GEMINI_API_KEY; base_url set only on the
OpenAI-compatible branch. -/
def GeminiProvider.init (getenv : String → Option String) (strategy : Strategy)
    (model_name : Option String) : Provider :=
  if pyIn "Native" strategy.className then
    { name := "Google Gemini (Native)"
      model := pyOrDefault model_name "gemini-2.5-pro"
      strategy := strategy
      api_key := getenv "GEMINI_API_KEY"
      base_url := none }
  else
    { name := "Google Gemini (OpenAI API)"
      model := pyOrDefault model_name "gemini-2.5-flash"
      strategy := strategy
      api_key := getenv "GEMINI_API_KEY"
      base_url := some "https://generativelanguage.googleapis.com/v1beta" }

/-- OllamaProvider.__init__ (llm_core/providers/ollama.py lines 37-44). -/
def OllamaProvider.init (model_name : Option String) : Provider :=
  { name := "Ollama"
    model := pyOrDefault model_name "llama3.2:latest"
    strategy := OpenAIAPIStrategyObj
    api_key := some "ollama"
    base_url := some "http://localhost:11434/v1" }

/-- OpenAIProvider.__init__ (summarize_webpage/providers/openai.py lines
8-14). -/
def OpenAIProvider.init (getenv : String → Option String) (model_name : Option String) :
    Provider :=
  { name := "OpenAI"
    model := pyOrDefault model_name "gpt-4o-mini"
    strategy := OpenAIAPIStrategyObj
    api_key := getenv "OPENAI_API_KEY"
    base_url := none }

/-- The module-level PROVIDERS list of
applications/summarize_webpage/summarize_webpage.py (lines 31-36). -/
def PROVIDERS (getenv : String → Option String) : List Provider :=
  [ OllamaProvider.init (some "llama3.2:latest"),
    OpenAIProvider.init getenv (some "gpt-5-nano"),
    GeminiProvider.init getenv OpenAIAPIStrategyObj (some "gemini-2.5-flash"),
    GeminiProvider.init getenv GeminiNativeStrategyObj (some "gemini-2.5-flash") ]

/-- The values accepted by the CLI provider-selection option (a
click.Choice, validated by the CLI layer before main's body runs). -/
inductive ProviderChoice where
  | ollama
  | openai
  | geminiOpenai
  | geminiNativeChoice
  | all
deriving DecidableEq, Repr

/-- The provider_map lookup of main (summarize_webpage.py lines 78-86). -/
def selectProviders (getenv : String → Option String) : ProviderChoice → List Provider
  | .ollama => [OllamaProvider.init (some "llama3.2:latest")]
  | .openai => [OpenAIProvider.init getenv (some "gpt-5-nano")]
  | .geminiOpenai => [GeminiProvider.init getenv OpenAIAPIStrategyObj (some "gemini-2.5-flash")]
  | .geminiNativeChoice =>
    [GeminiProvider.init getenv GeminiNativeStrategyObj (some "gemini-2.5-flash")]
  | .all => PROVIDERS getenv

/-- The body of main (applications/summarize_webpage/summarize_webpage.py
lines 52-92): validate the URL scheme first — `raise click.Abort()`
terminates the process with exit code 1 — then select providers and run
summarize_and_display over each.  `.error c` is a process abort with exit
code c; `.ok trace` is a completed run with its event trace. -/
def main (getenv : String → Option String) (fetch : String → String)
    (chat : ChatClient) (gen : GenClient) (url : String) (choice : ProviderChoice) :
    Except Nat (List Event) :=
  if !(pyStartsWith url "http://" || pyStartsWith url "https://") then
    .error 1
  else
    .ok ((selectProviders getenv choice).flatMap
      (fun p => summarize_and_display fetch chat gen p url))

/-- Calls the orchestrator can make on a provider (base_provider.py lines
37-67): get_client and summarize with its three string arguments. -/
inductive ProviderOp where
  | getClientOp
  | summarizeOp (website_content system_prompt user_pfx : String)
deriving DecidableEq, Repr

/-- State-passing semantics of one provider method call.  The Python
bodies of get_client and summarize (and of the strategy methods they
delegate to) contain no attribute assignment, so the post-state provider
is the input provider; summarize additionally produces its string
result. -/
def runOp (chat : ChatClient) (gen : GenClient) (p : Provider) :
    ProviderOp → Provider × Option String
  | .getClientOp => (p, none)
  | .summarizeOp c s u => (p, some (BaseProvider.summarize p chat gen c s u))

/-- Runs a sequence of provider method calls, threading the provider
state and collecting the results. -/
def runOps (chat : ChatClient) (gen : GenClient) (p : Provider) :
    List ProviderOp → Provider × List (Option String)
  | [] => (p, [])
  | op :: rest =>
    let step := runOp chat gen p op
    let tail := runOps chat gen step.1 rest
    (tail.1, step.2 :: tail.2)

/-! Helper lemmas about the embedded Python string operations. -/

theorem pyIn_of_eq (pat s a b : String) (h : s = a ++ pat ++ b) : pyIn pat s = true := by
  subst h
  simp only [pyIn, decide_eq_true_eq]
  exact ⟨a.data, b.data, by simp [String.data_append]⟩

theorem pyStartsWith_append (pre rest : String) : pyStartsWith (pre ++ rest) pre = true := by
  simp only [pyStartsWith, List.isPrefixOf_iff_prefix, String.data_append]
  exact List.prefix_append _ _

/-- C1: on a normal client response with a first choice, the
OpenAI-compatible strategy's outgoing message list has exactly two
entries — system role carrying the system instruction, user role carrying
the concatenation of the user prompt and the content with no
separator — the request targets provider.model, and the returned value is
the first response choice's message text. -/
theorem openai_summarize_success (provider : Provider) (client : ChatClient)
    (content sys upfx : String) (resp : ChatResponse)
    (choice : ChatChoice) (rest : List ChatChoice)
    (hclient : client (openaiRequest provider content sys upfx) = .ok resp)
    (hchoices : resp.choices = choice :: rest) :
    (openaiRequest provider content sys upfx).messages =
      [⟨"system", sys⟩, ⟨"user", upfx ++ content⟩] ∧
    (openaiRequest provider content sys upfx).model = provider.model ∧
    OpenAIAPIStrategy.summarize provider client content sys upfx =
      choice.message.content := by
  refine ⟨rfl, rfl, ?_⟩
  simp only [OpenAIAPIStrategy.summarize, hclient, hchoices]

def wChatResponse : ChatResponse := ⟨[⟨⟨"fixed text"⟩⟩]⟩

def wChatClient : ChatClient := fun _ => .ok wChatResponse

def wGenClient : GenClient := fun _ => .ok ⟨"gen text"⟩

def wProvider : Provider :=
  { name := "P", model := "m", strategy := OpenAIAPIStrategyObj,
    api_key := some "k", base_url := none }

theorem openai_summarize_success_witness :
    (openaiRequest wProvider "body" "sys" "pre ").messages =
      [⟨"system", "sys"⟩, ⟨"user", "pre " ++ "body"⟩] ∧
    (openaiRequest wProvider "body" "sys" "pre ").model = wProvider.model ∧
    OpenAIAPIStrategy.summarize wProvider wChatClient "body" "sys" "pre " = "fixed text" :=
  openai_summarize_success wProvider wChatClient "body" "sys" "pre "
    wChatResponse ⟨⟨"fixed text"⟩⟩ [] rfl rfl

/-- C2: when the underlying client call raises, summarize of either
strategy returns a string — the exception never propagates — equal to the
strategy's error template, hence containing the provider's name and the
exception's description; the vendor-native string additionally contains
the marker "(Native)". -/
theorem summarize_error_to_string (p : Provider) (chatClient : ChatClient)
    (genClient : GenClient) (content sys upfx e₁ e₂ : String)
    (hc : chatClient (openaiRequest p content sys upfx) = .error e₁)
    (hg : genClient (geminiFullPrompt content sys upfx) = .error e₂) :
    OpenAIAPIStrategy.summarize p chatClient content sys upfx =
      "An error occurred with " ++ p.name ++ ": " ++ e₁ ∧
    pyIn p.name (OpenAIAPIStrategy.summarize p chatClient content sys upfx) = true ∧
    pyIn e₁ (OpenAIAPIStrategy.summarize p chatClient content sys upfx) = true ∧
    GeminiNativeStrategy.summarize p genClient content sys upfx =
      "An error occurred with " ++ p.name ++ " (Native): " ++ e₂ ∧
    pyIn p.name (GeminiNativeStrategy.summarize p genClient content sys upfx) = true ∧
    pyIn e₂ (GeminiNativeStrategy.summarize p genClient content sys upfx) = true ∧
    pyIn "(Native)" (GeminiNativeStrategy.summarize p genClient content sys upfx) = true := by
  have h1 : OpenAIAPIStrategy.summarize p chatClient content sys upfx =
      "An error occurred with " ++ p.name ++ ": " ++ e₁ := by
    simp only [OpenAIAPIStrategy.summarize, hc]
  have h2 : GeminiNativeStrategy.summarize p genClient content sys upfx =
      "An error occurred with " ++ p.name ++ " (Native): " ++ e₂ := by
    simp only [GeminiNativeStrategy.summarize, hg]
  have hsplit : (" (Native): " : String) = " " ++ "(Native)" ++ ": " := by decide
  refine ⟨h1, ?_, ?_, h2, ?_, ?_, ?_⟩
  · exact pyIn_of_eq _ _ "An error occurred with " (": " ++ e₁)
      (by rw [h1]; simp [String.append_assoc])
  · exact pyIn_of_eq _ _ ("An error occurred with " ++ p.name ++ ": ") ""
      (by rw [h1]; simp [String.append_assoc])
  · exact pyIn_of_eq _ _ "An error occurred with " (" (Native): " ++ e₂)
      (by rw [h2]; simp [String.append_assoc])
  · exact pyIn_of_eq _ _ ("An error occurred with " ++ p.name ++ " (Native): ") ""
      (by rw [h2]; simp [String.append_assoc])
  · exact pyIn_of_eq _ _ ("An error occurred with " ++ p.name ++ " ") (": " ++ e₂)
      (by rw [h2, hsplit]; simp only [String.append_assoc])

def wErrChatClient : ChatClient := fun _ => .error "boom"

def wErrGenClient : GenClient := fun _ => .error "crash"

theorem summarize_error_to_string_witness :
    OpenAIAPIStrategy.summarize wProvider wErrChatClient "body" "sys" "pre " =
      "An error occurred with " ++ wProvider.name ++ ": " ++ "boom" ∧
    GeminiNativeStrategy.summarize wProvider wErrGenClient "body" "sys" "pre " =
      "An error occurred with " ++ wProvider.name ++ " (Native): " ++ "crash" ∧
    pyIn "(Native)"
      (GeminiNativeStrategy.summarize wProvider wErrGenClient "body" "sys" "pre ") = true := by
  have h := summarize_error_to_string wProvider wErrChatClient wErrGenClient
    "body" "sys" "pre " "boom" "crash" rfl rfl
  exact ⟨h.1, h.2.2.2.1, h.2.2.2.2.2.2⟩

/-- C3: for a provider with an absent credential, the orchestrator's
trace is exactly one skip report naming the provider; get_client and
summarize are never invoked. -/
theorem run_skips_without_credential (fetch : String → String) (chat : ChatClient)
    (gen : GenClient) (p : Provider) (url : String) (h : p.api_key = none) :
    summarize_and_display fetch chat gen p url = [.skipReport p.name] ∧
    (summarize_and_display fetch chat gen p url).countP Event.isSkipReport = 1 ∧
    (summarize_and_display fetch chat gen p url).countP Event.isGetClientCall = 0 ∧
    (summarize_and_display fetch chat gen p url).countP Event.isSummarizeCall = 0 := by
  have ht : pyTruthy p.api_key = false := by rw [h]; rfl
  have htrace : summarize_and_display fetch chat gen p url = [.skipReport p.name] := by
    unfold summarize_and_display
    rw [ht]
    simp
  refine ⟨htrace, ?_, ?_, ?_⟩ <;> rw [htrace] <;> rfl

def wFetch : String → String := fun _ => "About Python\n\nPython is a language."

def wNoKeyProvider : Provider :=
  { name := "Ollama", model := "llama3.2:latest", strategy := OpenAIAPIStrategyObj,
    api_key := none, base_url := none }

theorem run_skips_without_credential_witness :
    summarize_and_display wFetch wChatClient wGenClient wNoKeyProvider "https://example.com" =
      [.skipReport wNoKeyProvider.name] ∧
    (summarize_and_display wFetch wChatClient wGenClient wNoKeyProvider
      "https://example.com").countP Event.isSummarizeCall = 0 := by
  have h := run_skips_without_credential wFetch wChatClient wGenClient wNoKeyProvider
    "https://example.com" rfl
  exact ⟨h.1, h.2.2.2⟩

/-- C9: the orchestrator's credential check is Python falsiness, so an
empty-string credential (not only an absent one) also takes the skip
path: the trace is the single skip report and neither get_client nor
summarize is invoked. -/
theorem run_skips_empty_credential (fetch : String → String) (chat : ChatClient)
    (gen : GenClient) (p : Provider) (url : String) (h : p.api_key = some "") :
    summarize_and_display fetch chat gen p url = [.skipReport p.name] ∧
    (summarize_and_display fetch chat gen p url).countP Event.isSkipReport = 1 ∧
    (summarize_and_display fetch chat gen p url).countP Event.isGetClientCall = 0 ∧
    (summarize_and_display fetch chat gen p url).countP Event.isSummarizeCall = 0 := by
  have ht : pyTruthy p.api_key = false := by rw [h]; rfl
  have htrace : summarize_and_display fetch chat gen p url = [.skipReport p.name] := by
    unfold summarize_and_display
    rw [ht]
    simp
  refine ⟨htrace, ?_, ?_, ?_⟩ <;> rw [htrace] <;> rfl

def wEmptyKeyProvider : Provider :=
  { name := "OpenAI", model := "gpt-4o-mini", strategy := OpenAIAPIStrategyObj,
    api_key := some "", base_url := none }

theorem run_skips_empty_credential_witness :
    summarize_and_display wFetch wChatClient wGenClient wEmptyKeyProvider "https://example.com" =
      [.skipReport wEmptyKeyProvider.name] ∧
    (summarize_and_display wFetch wChatClient wGenClient wEmptyKeyProvider
      "https://example.com").countP Event.isGetClientCall = 0 := by
  have h := run_skips_empty_credential wFetch wChatClient wGenClient wEmptyKeyProvider
    "https://example.com" rfl
  exact ⟨h.1, h.2.2.1⟩

/-- C4: when the fetched content starts with the failure marker, the run
reports exactly one scraping error and never invokes summarize; and the
fetch collaborator signals failure only by returning a marker-prefixed
string — its except clause maps every raised exception to such a string,
and it returns a plain string in all cases. -/
theorem run_stops_on_fetch_failure (fetch : String → String) (chat : ChatClient)
    (gen : GenClient) (p : Provider) (url : String)
    (hk : pyTruthy p.api_key = true)
    (hf : pyStartsWith (fetch url) errorMarker = true) :
    summarize_and_display fetch chat gen p url =
      [.getClientCall p.name, .scrapeErrorReport (fetch url)] ∧
    (summarize_and_display fetch chat gen p url).countP Event.isSummarizeCall = 0 ∧
    (summarize_and_display fetch chat gen p url).countP Event.isScrapeErrorReport = 1 ∧
    (∀ e, pyStartsWith (fetch_website_contents (.error e)) errorMarker = true) := by
  have hlit : ("Error fetching website content with Playwright: " : String) =
      errorMarker ++ " with Playwright: " := by decide
  have htrace : summarize_and_display fetch chat gen p url =
      [.getClientCall p.name, .scrapeErrorReport (fetch url)] := by
    unfold summarize_and_display
    rw [hk]
    simp [hf]
  refine ⟨htrace, ?_, ?_, ?_⟩
  · rw [htrace]; rfl
  · rw [htrace]; rfl
  · intro e
    show pyStartsWith ("Error fetching website content with Playwright: " ++ e) errorMarker = true
    rw [hlit, String.append_assoc]
    exact pyStartsWith_append _ _

def wFailFetch : String → String :=
  fun _ => "Error fetching website content with Playwright: net::ERR_NAME_NOT_RESOLVED"

theorem run_stops_on_fetch_failure_witness :
    summarize_and_display wFailFetch wChatClient wGenClient wProvider "https://example.com" =
      [.getClientCall wProvider.name,
        .scrapeErrorReport (wFailFetch "https://example.com")] ∧
    (summarize_and_display wFailFetch wChatClient wGenClient wProvider
      "https://example.com").countP Event.isSummarizeCall = 0 := by
  have h := run_stops_on_fetch_failure wFailFetch wChatClient wGenClient wProvider
    "https://example.com" rfl (by decide)
  exact ⟨h.1, h.2.1⟩

/-- C5: on a successful client call, the vendor-native strategy sends the
single flattened prompt system_instruction ++ "\n\n" ++ user_prefix ++
"\n\n" ++ content and returns the response's text field. -/
theorem gemini_native_summarize_success (p : Provider) (genClient : GenClient)
    (content sys upfx : String) (resp : GeminiResponse)
    (h : genClient (geminiFullPrompt content sys upfx) = .ok resp) :
    geminiFullPrompt content sys upfx = sys ++ "\n\n" ++ upfx ++ "\n\n" ++ content ∧
    pyIn sys (geminiFullPrompt content sys upfx) = true ∧
    pyIn upfx (geminiFullPrompt content sys upfx) = true ∧
    pyIn content (geminiFullPrompt content sys upfx) = true ∧
    GeminiNativeStrategy.summarize p genClient content sys upfx = resp.text := by
  refine ⟨rfl, ?_, ?_, ?_, ?_⟩
  · exact pyIn_of_eq _ _ "" ("\n\n" ++ upfx ++ "\n\n" ++ content)
      (by simp [geminiFullPrompt, String.append_assoc])
  · exact pyIn_of_eq _ _ (sys ++ "\n\n") ("\n\n" ++ content)
      (by simp [geminiFullPrompt, String.append_assoc])
  · exact pyIn_of_eq _ _ (sys ++ "\n\n" ++ upfx ++ "\n\n") ""
      (by simp [geminiFullPrompt, String.append_assoc])
  · simp only [GeminiNativeStrategy.summarize, h]

theorem gemini_native_summarize_success_witness :
    geminiFullPrompt "body" "sys" "pre" = "sys" ++ "\n\n" ++ "pre" ++ "\n\n" ++ "body" ∧
    GeminiNativeStrategy.summarize wProvider wGenClient "body" "sys" "pre" = "gen text" := by
  have h := gemini_native_summarize_success wProvider wGenClient "body" "sys" "pre"
    ⟨"gen text"⟩ rfl
  exact ⟨h.1, h.2.2.2.2⟩

/-- C6: constructing the dual-strategy Gemini provider with the native
strategy yields the native display name, the native default model (with
no model supplied), and no endpoint override; with the OpenAI-compatible
strategy it yields a different display name, a different default model,
and the compatibility-layer endpoint override; in both cases the
credential comes from the GEMINI_API_KEY environment key. -/
theorem gemini_provider_config (getenv : String → Option String) :
    (GeminiProvider.init getenv GeminiNativeStrategyObj none).name =
      "Google Gemini (Native)" ∧
    (GeminiProvider.init getenv GeminiNativeStrategyObj none).model = "gemini-2.5-pro" ∧
    (GeminiProvider.init getenv GeminiNativeStrategyObj none).base_url = none ∧
    (GeminiProvider.init getenv OpenAIAPIStrategyObj none).name =
      "Google Gemini (OpenAI API)" ∧
    (GeminiProvider.init getenv OpenAIAPIStrategyObj none).model = "gemini-2.5-flash" ∧
    (GeminiProvider.init getenv OpenAIAPIStrategyObj none).base_url =
      some "https://generativelanguage.googleapis.com/v1beta" ∧
    (GeminiProvider.init getenv GeminiNativeStrategyObj none).name ≠
      (GeminiProvider.init getenv OpenAIAPIStrategyObj none).name ∧
    (GeminiProvider.init getenv GeminiNativeStrategyObj none).model ≠
      (GeminiProvider.init getenv OpenAIAPIStrategyObj none).model ∧
    (GeminiProvider.init getenv GeminiNativeStrategyObj none).api_key =
      getenv "GEMINI_API_KEY" ∧
    (GeminiProvider.init getenv OpenAIAPIStrategyObj none).api_key =
      getenv "GEMINI_API_KEY" := by
  have hN : pyIn "Native" GeminiNativeStrategyObj.className = true := by decide
  have hO : pyIn "Native" OpenAIAPIStrategyObj.className = false := by decide
  unfold GeminiProvider.init
  rw [hN, hO]
  simp [pyOrDefault]

/-- C10: the dual-strategy provider's branch tests whether "Native"
occurs as a substring of the supplied strategy's class name — not the
strategy's identity or behaviour: any strategy whose class name contains
"Native" gets the native configuration, and any whose class name lacks it
gets the compatibility configuration, regardless of the behaviour field. -/
theorem gemini_provider_class_name_branch (getenv : String → Option String)
    (s : Strategy) (m : Option String) :
    (pyIn "Native" s.className = true →
      (GeminiProvider.init getenv s m).name = "Google Gemini (Native)" ∧
      (GeminiProvider.init getenv s none).model = "gemini-2.5-pro" ∧
      (GeminiProvider.init getenv s m).base_url = none) ∧
    (pyIn "Native" s.className = false →
      (GeminiProvider.init getenv s m).name = "Google Gemini (OpenAI API)" ∧
      (GeminiProvider.init getenv s none).model = "gemini-2.5-flash" ∧
      (GeminiProvider.init getenv s m).base_url =
        some "https://generativelanguage.googleapis.com/v1beta") := by
  constructor <;> intro h <;> simp [GeminiProvider.init, h, pyOrDefault]

theorem gemini_provider_class_name_branch_witness :
    (GeminiProvider.init (fun _ => none) ⟨"FakeNativeThing", .openaiAPI⟩ none).name =
      "Google Gemini (Native)" ∧
    (GeminiProvider.init (fun _ => none) ⟨"SomeStrategy", .geminiNative⟩ none).name =
      "Google Gemini (OpenAI API)" := by
  refine ⟨((gemini_provider_class_name_branch (fun _ => none)
    ⟨"FakeNativeThing", .openaiAPI⟩ none).1 (by decide)).1,
    ((gemini_provider_class_name_branch (fun _ => none)
    ⟨"SomeStrategy", .geminiNative⟩ none).2 (by decide)).1⟩

theorem gemini_provider_config_witness :
    (GeminiProvider.init (fun _ => some "sk-test") GeminiNativeStrategyObj none).name =
      "Google Gemini (Native)" ∧
    (GeminiProvider.init (fun _ => some "sk-test") GeminiNativeStrategyObj none).api_key =
      some "sk-test" ∧
    (GeminiProvider.init (fun _ => some "sk-test") OpenAIAPIStrategyObj none).api_key =
      some "sk-test" := by
  have h := gemini_provider_config (fun _ => some "sk-test")
  exact ⟨h.1, h.2.2.2.2.2.2.2.2.1, h.2.2.2.2.2.2.2.2.2⟩

theorem runOps_fst (chat : ChatClient) (gen : GenClient) (p : Provider)
    (ops : List ProviderOp) : (runOps chat gen p ops).1 = p := by
  induction ops generalizing p with
  | nil => rfl
  | cons op rest ih => cases op <;> simp [runOps, runOp, ih]

/-- C7: a provider's five configuration fields are unchanged by any
sequence of get_client and summarize calls — the state-passing embedding
of the provider operations (whose Python bodies contain no attribute
assignment) is the identity on the provider. -/
theorem provider_immutable (chat : ChatClient) (gen : GenClient) (p : Provider)
    (ops : List ProviderOp) :
    (runOps chat gen p ops).1.name = p.name ∧
    (runOps chat gen p ops).1.model = p.model ∧
    (runOps chat gen p ops).1.strategy = p.strategy ∧
    (runOps chat gen p ops).1.api_key = p.api_key ∧
    (runOps chat gen p ops).1.base_url = p.base_url := by
  rw [runOps_fst]
  exact ⟨rfl, rfl, rfl, rfl, rfl⟩

theorem provider_immutable_witness :
    (runOps wChatClient wGenClient wProvider
      [.getClientOp, .summarizeOp "content" "sys" "pre", .getClientOp]).1.name =
      wProvider.name ∧
    (runOps wChatClient wGenClient wProvider
      [.getClientOp, .summarizeOp "content" "sys" "pre", .getClientOp]).1.api_key =
      wProvider.api_key := by
  have h := provider_immutable wChatClient wGenClient wProvider
    [.getClientOp, .summarizeOp "content" "sys" "pre", .getClientOp]
  exact ⟨h.1, h.2.2.2.1⟩

/-- C8: a CLI invocation whose URL starts with neither "http://" nor
"https://" aborts with exit code 1 — a non-zero exit — before provider
selection or any orchestration runs (the result carries no event trace);
and conversely every process abort of main arises from exactly this URL
validation, with a non-zero code. -/
theorem cli_invalid_url_aborts (getenv : String → Option String)
    (fetch : String → String) (chat : ChatClient) (gen : GenClient)
    (url : String) (choice : ProviderChoice) :
    (¬(pyStartsWith url "http://" = true ∨ pyStartsWith url "https://" = true) →
      main getenv fetch chat gen url choice = .error 1) ∧
    (∀ c, main getenv fetch chat gen url choice = .error c →
      c ≠ 0 ∧ ¬(pyStartsWith url "http://" = true ∨ pyStartsWith url "https://" = true)) := by
  constructor
  · intro h
    have h1 : pyStartsWith url "http://" = false := by
      cases hx : pyStartsWith url "http://"
      · rfl
      · exact absurd (Or.inl hx) h
    have h2 : pyStartsWith url "https://" = false := by
      cases hx : pyStartsWith url "https://"
      · rfl
      · exact absurd (Or.inr hx) h
    unfold main
    rw [h1, h2]
    rfl
  · intro c hc
    unfold main at hc
    cases hB : (pyStartsWith url "http://" || pyStartsWith url "https://") with
    | true =>
      rw [hB] at hc
      simp at hc
    | false =>
      rw [hB] at hc
      simp at hc
      have hboth := Bool.or_eq_false_iff.mp hB
      refine ⟨by omega, ?_⟩
      intro hor
      cases hor with
      | inl h => rw [hboth.1] at h; exact Bool.false_ne_true h
      | inr h => rw [hboth.2] at h; exact Bool.false_ne_true h

theorem cli_invalid_url_aborts_witness :
    main (fun _ => none) wFetch wChatClient wGenClient "ftp://example.com" .all =
      .error 1 :=
  (cli_invalid_url_aborts (fun _ => none) wFetch wChatClient wGenClient
    "ftp://example.com" .all).1 (by decide)

end LLMPlayground
